import Mathlib

/- Verification of the state-synchronization and device-protocol core of the
TCP-IP-Python-V4 repository: the telemetry feedback loop, the motion-dispatch
reply parsing and completion polling, and the Robotiq EPick vacuum-gripper
register protocol.  Every definition below is a shallow embedding of the
Python source it is named after (src/DobotDemo.py, src/replay_trajectory.py,
src/ui.py, src/ui_epick.py, src/ui_epick_control.py). -/

/-! ### Binary-string machinery (ui_epick.py lines 25-44, identical copy in
ui_epick_control.py lines 31-49) -/

/-- Value contributed by one binary digit character. -/
def bitVal (c : Char) : Nat := if c = '1' then 1 else 0

/-- Whether a character is a binary digit, as accepted by Python int(s, 2)
on the plain unsigned numerals that arise here. -/
def isBit (c : Char) : Bool := c = '0' || c = '1'

/-- Numeric value of a bit string, most significant bit first. -/
def bitsVal (s : List Char) : Nat := s.foldl (fun a c => 2 * a + bitVal c) 0

/-- Character of one binary digit. -/
def bitChar (b : Nat) : Char := if b = 1 then '1' else '0'

/-- Binary digits of a natural number, most significant first, with an
explicit recursion budget (any budget at least the number itself works). -/
def binDigitsAux : Nat → Nat → List Char
  | 0, _ => []
  | fuel + 1, n =>
    if n = 0 then []
    else binDigitsAux fuel (n / 2) ++ [bitChar (n % 2)]

/-- Python bin(n)[2:] for n ≥ 0: binary digits, msb first, and the single
digit 0 for n = 0. -/
def binDigits (n : Nat) : List Char := if n = 0 then ['0'] else binDigitsAux n n

/-- Python str.zfill on a string without a leading sign: left-pad with the
digit 0 up to the requested width (the sign-aware branch of zfill is never
reached by the strings produced in this code). -/
def zfill (w : Nat) (s : List Char) : List Char :=
  List.replicate (w - s.length) '0' ++ s

/-- Python bin(num)[2:].  For num < 0, bin yields a string such as -0b101 and
slicing off two characters leaves b101: the letter b survives into the
result, which is what later makes int(s, 2) raise. -/
def pyBinSlice2 (num : Int) : List Char :=
  if 0 ≤ num then binDigits num.toNat else 'b' :: binDigits (-num).toNat

/-- decimalToBinaryString(num, length=8) of ui_epick.py line 28:
bin(num)[2:].zfill(length) with the default length 8. -/
def decimalToBinaryString (num : Int) : List Char := zfill 8 (pyBinSlice2 num)

/-- binaryStringToDecimal(s) = int(s, 2) of ui_epick.py line 25; none models
the ValueError raised when the string is not a plain binary numeral (the
only invalid strings reachable here contain the letter b from a negative
bin slice). -/
def binaryStringToDecimal (s : List Char) : Option Nat :=
  if s.isEmpty = false ∧ s.all isBit = true then some (bitsVal s) else none

/-- CMD_HANDLER ACTION of ui_epick.py line 33: join the flag strings, append
eight zero bits, and read the result as a binary numeral. -/
def cmdACTION (flags : List (List Char)) : Option Nat :=
  binaryStringToDecimal (flags.flatten ++ List.replicate 8 '0')

/-- CMD_HANDLER MAX_VACUUM of ui_epick.py line 34: eight zero bits followed
by the 8-bit-zfilled binary string of the argument. -/
def cmdMAX_VACUUM (x : Int) : Option Nat :=
  binaryStringToDecimal (List.replicate 8 '0' ++ decimalToBinaryString x)

/-- CMD_HANDLER MIN_VACUUM of ui_epick.py line 35 (returns the bit string). -/
def cmdMIN_VACUUM (x : Int) : List Char := decimalToBinaryString x

/-- CMD_HANDLER TIMEOUT of ui_epick.py line 36 (returns the bit string). -/
def cmdTIMEOUT (x : Int) : List Char := decimalToBinaryString x

/-! ### ACTION_CMD flag table (ui_epick.py lines 39-44) -/

def ATR_NORMAL : List Char := ['0']
def GTO_HOLD : List Char := ['0']
def GTO_CONTROLED : List Char := ['1']
def MOD_ADVANCED : List Char := ['0', '1']
def ACT_CLEAR_FAULT_STATUS : List Char := ['0']
def ACT_ENABLE : List Char := ['1']

/-- ROBORIQ_EPICK_WRITE_ADDRESS = 0x03E8 (ui_epick.py line 21). -/
def ROBORIQ_EPICK_WRITE_ADDRESS : Nat := 0x03E8

/-- RobotiqEpick.RELEASE_VACUUM = 255 (ui_epick.py line 51). -/
def RELEASE_VACUUM : Int := 255

/-- math.ceil(timeout / 100) computed exactly on an integer timeout
(ui_epick.py line 126; the floating-point division is exact enough that the
ceiling equals the mathematical one on the integer ranges concerned). -/
def ceil100 (t : Int) : Int := (t + 99).fdiv 100

/-! ### Gripper register-write traces (RobotiqEpick of ui_epick.py; the same
methods appear verbatim in ui_epick_control.py).  A trace records, in program
order, the (address, values) pairs handed to write_by_485, and a flag that is
false when a ValueError escapes from the encoders before the method finished
(aborting the remaining writes).  The trace model assumes a connected
serial-bridge channel; the disconnected case is modelled separately by
write_by_485 below. -/

/-- One register write on the serial bridge: target address plus the list of
register values. -/
structure Wr where
  addr : Nat
  vals : List Nat
  deriving DecidableEq

/-- RobotiqEpick.init (ui_epick.py lines 99-113): fault-clear word plus the
release vacuum threshold, then the enable word plus the same threshold, both
at the action address. -/
def initTrace : List Wr × Bool :=
  match cmdACTION [ATR_NORMAL, GTO_HOLD, MOD_ADVANCED, ACT_CLEAR_FAULT_STATUS] with
  | none => ([], false)
  | some cmd =>
    match cmdMAX_VACUUM RELEASE_VACUUM with
    | none => ([], false)
    | some mv =>
      match cmdACTION [ATR_NORMAL, GTO_HOLD, MOD_ADVANCED, ACT_ENABLE] with
      | none => ([⟨ROBORIQ_EPICK_WRITE_ADDRESS, [cmd, mv]⟩], false)
      | some resetCMD =>
        ([⟨ROBORIQ_EPICK_WRITE_ADDRESS, [cmd, mv]⟩,
          ⟨ROBORIQ_EPICK_WRITE_ADDRESS, [resetCMD, mv]⟩], true)

/-- RobotiqEpick.grip (ui_epick.py lines 115-141), in source order: the
fault-clear write, then the parameter encodings (which may raise), then the
enable write, the parameter write at the next address, and finally the
controlled-and-enabled execute write. -/
def gripTrace (max_v min_v timeout : Int) : List Wr × Bool :=
  match cmdACTION [ATR_NORMAL, GTO_HOLD, MOD_ADVANCED, ACT_CLEAR_FAULT_STATUS] with
  | none => ([], false)
  | some resetCMD =>
    let w1 : List Wr := [⟨ROBORIQ_EPICK_WRITE_ADDRESS, [resetCMD]⟩]
    match cmdMAX_VACUUM (100 - max_v) with
    | none => (w1, false)
    | some mv =>
      match binaryStringToDecimal
          (cmdTIMEOUT (ceil100 timeout) ++ cmdMIN_VACUUM (100 - min_v)) with
      | none => (w1, false)
      | some tm =>
        match cmdACTION [ATR_NORMAL, GTO_HOLD, MOD_ADVANCED, ACT_ENABLE] with
        | none => (w1, false)
        | some en =>
          let w3 : List Wr := w1 ++
            [⟨ROBORIQ_EPICK_WRITE_ADDRESS, [en]⟩,
             ⟨ROBORIQ_EPICK_WRITE_ADDRESS + 1, [mv, tm]⟩]
          match cmdACTION [ATR_NORMAL, GTO_CONTROLED, MOD_ADVANCED, ACT_ENABLE] with
          | none => (w3, false)
          | some g => (w3 ++ [⟨ROBORIQ_EPICK_WRITE_ADDRESS, [g]⟩], true)

/-- RobotiqEpick.release (ui_epick.py lines 143-165): fault-clear write, then
the controlled-and-enabled word with the release threshold, then the
hold-and-enabled word. -/
def releaseTrace : List Wr × Bool :=
  match cmdACTION [ATR_NORMAL, GTO_HOLD, MOD_ADVANCED, ACT_CLEAR_FAULT_STATUS] with
  | none => ([], false)
  | some resetCMD =>
    let w1 : List Wr := [⟨ROBORIQ_EPICK_WRITE_ADDRESS, [resetCMD]⟩]
    match cmdACTION [ATR_NORMAL, GTO_CONTROLED, MOD_ADVANCED, ACT_ENABLE] with
    | none => (w1, false)
    | some cmd =>
      match cmdMAX_VACUUM RELEASE_VACUUM with
      | none => (w1, false)
      | some mv =>
        let w2 : List Wr := w1 ++ [⟨ROBORIQ_EPICK_WRITE_ADDRESS, [cmd, mv]⟩]
        match cmdACTION [ATR_NORMAL, GTO_HOLD, MOD_ADVANCED, ACT_ENABLE] with
        | none => (w2, false)
        | some hold => (w2 ++ [⟨ROBORIQ_EPICK_WRITE_ADDRESS, [hold]⟩], true)

/-! ### write_by_485 (ui_epick.py lines 85-97; byte-identical logic in
ui_epick_control.py lines 81-90) -/

/-- One transmission issued to the dashboard channel by write_by_485. -/
inductive Tx where
  | setTool485
  | setHoldRegs (index : Int) (address : Int) (count : Nat) (valTab : String)
  deriving DecidableEq

/-- The brace-delimited value list built by write_by_485 line 92-93. -/
def valTab (datas : List Int) : String :=
  String.mk (Char.ofNat 123 ::
    ((String.intercalate "," (datas.map toString)).data ++ [Char.ofNat 125]))

/-- RobotiqEpick.write_by_485: with no ModbusIndex it returns the error
string at once; otherwise, under the write lock, it re-issues SetTool485,
sends SetHoldRegs, sleeps the settle delay, and returns the device reply
(devReply parametrises the external dashboard response).  Result: result
string, transmissions issued, and the ModbusIndex afterwards. -/
def write_by_485 (devReply : String) (modbusIndex : Option Int)
    (address : Int) (datas : List Int) : String × List Tx × Option Int :=
  match modbusIndex with
  | none => ("Error: No Modbus Index", [], none)
  | some idx =>
    (devReply,
     [Tx.setTool485, Tx.setHoldRegs idx address datas.length (valTab datas)],
     some idx)

/-! ### Concurrent scheduling of atomic register writes.  The lock in
write_by_485 is held for one transmission plus the settle delay, so the unit
of atomicity at the transport is a single write_by_485 call; between two
calls of the same gripper action the lock is free and the Python scheduler
may run another thread.  A schedule of booleans picks, at each step, which
thread's next atomic write reaches the transport. -/

/-- Interleave two write sequences under a schedule: true takes the next
element of the first sequence, false of the second; an exhausted schedule or
sequence flushes the rest in order. -/
def interleaveBy {α : Type} : List Bool → List α → List α → List α
  | [], xs, ys => xs ++ ys
  | _ :: _, [], ys => ys
  | _ :: _, x :: xs, [] => x :: xs
  | true :: sc, x :: xs, y :: ys => x :: interleaveBy sc xs (y :: ys)
  | false :: sc, x :: xs, y :: ys => y :: interleaveBy sc (x :: xs) ys

/-! ### Reply parsing (DobotDemo.py lines 89-94, replay_trajectory.py
lines 104-109) -/

/-- Scanner state for re.findall applied to the pattern of an optional minus
sign followed by one or more digits: outside any candidate match, just after
a minus sign, or inside a digit run with its sign and accumulated value. -/
inductive ScanSt where
  | idle
  | dash
  | num (neg : Bool) (acc : Nat)

/-- Value of a decimal digit character. -/
def digitVal (c : Char) : Nat := c.toNat - 48

/-- Signed value of an accumulated digit run. -/
def emitNum (neg : Bool) (acc : Nat) : Int :=
  if neg then -(acc : Int) else (acc : Int)

/-- Left-to-right scan implementing re.findall with the regex of
DobotDemo.parseResultId: each match is a maximal run of digits together with
an immediately preceding minus sign when one is present and not already
consumed; matches are emitted in order of occurrence. -/
def findIntsGo : ScanSt → List Char → List Int
  | ScanSt.idle, [] => []
  | ScanSt.dash, [] => []
  | ScanSt.num neg acc, [] => [emitNum neg acc]
  | ScanSt.idle, c :: rest =>
    if c.isDigit then findIntsGo (ScanSt.num false (digitVal c)) rest
    else if c = '-' then findIntsGo ScanSt.dash rest
    else findIntsGo ScanSt.idle rest
  | ScanSt.dash, c :: rest =>
    if c.isDigit then findIntsGo (ScanSt.num true (digitVal c)) rest
    else if c = '-' then findIntsGo ScanSt.dash rest
    else findIntsGo ScanSt.idle rest
  | ScanSt.num neg acc, c :: rest =>
    if c.isDigit then findIntsGo (ScanSt.num neg (acc * 10 + digitVal c)) rest
    else emitNum neg acc ::
      (if c = '-' then findIntsGo ScanSt.dash rest else findIntsGo ScanSt.idle rest)

/-- re.findall of an optional minus sign followed by digits, over a string:
all integers occurring in the text, in order of occurrence. -/
def findInts (s : List Char) : List Int := findIntsGo ScanSt.idle s

/-- Whether the needle matches at the head of the haystack. -/
def leadsWith : List Char → List Char → Bool
  | [], _ => true
  | _ :: _, [] => false
  | a :: as, b :: bs => (a = b) && leadsWith as bs

/-- Python substring containment (needle in haystack). -/
def containsSub (needle : List Char) : List Char → Bool
  | [] => leadsWith needle []
  | c :: t => leadsWith needle (c :: t) || containsSub needle t

/-- The wrong-control-mode marker checked by DobotDemo.parseResultId. -/
def notTcpMarker : List Char := "Not Tcp".data

/-- DobotDemo.parseResultId (DobotDemo.py lines 89-94): the sentinel list
with the single element 1 when the reply contains the marker, otherwise the
extracted integers, or the sentinel list with the single element 2 when no
integer occurs. -/
def parseResultId (valueRecv : String) : List Int :=
  if containsSub notTcpMarker valueRecv.data then [1]
  else
    let l := findInts valueRecv.data
    if l.isEmpty then [2] else l

/-- replay_trajectory._parse_result_code (lines 107-109): the first integer
found in the reply, or 0 when none occurs (re.search finds the same first
match as re.findall). -/
def parse_result_code (reply : String) : Int :=
  ((findInts reply.data).head?).getD 0

/-! ### Telemetry snapshot state and the feedback loops -/

/-- The item record of DobotDemo (DobotDemo.py lines 15-25) holding the
published telemetry snapshot. -/
structure FeedData where
  robotMode : Int
  robotCurrentCommandID : Int
  MessageSize : Int
  DigitalInputs : Int
  DigitalOutputs : Int
  deriving DecidableEq

/-- A decoded telemetry frame (the numpy structured record of the 1440-byte
frame).  The float64 payloads (speed scaling, joint angles, tool pose) are
carried as opaque integer values: the claims proved here concern whether an
update happens at all, not float arithmetic. -/
structure Frame where
  testValue : Nat
  len : Int
  robotMode : Int
  currentCommandId : Int
  digitalInputs : Nat
  digitalOutputs : Nat
  speedScaling : Int
  qActual : List Int
  toolVectorActual : List Int
  deriving DecidableEq

/-- The sentinel magic 0x0123456789ABCDEF.  The source compares
hex(testValue) with the literal string 0x123456789abcdef; on the unsigned
64-bit field this string equality holds exactly when the value equals the
magic. -/
def TEST_VALUE_MAGIC : Nat := 0x0123456789ABCDEF

/-- One iteration of DobotDemo.GetFeed (DobotDemo.py lines 53-71): a missing
frame or a frame failing the magic check leaves the snapshot untouched;
otherwise every snapshot field is replaced from the frame. -/
def getFeedStep (fo : Option Frame) (d : FeedData) : FeedData :=
  match fo with
  | none => d
  | some f =>
    if f.testValue = TEST_VALUE_MAGIC then
      { robotMode := f.robotMode
        robotCurrentCommandID := f.currentCommandId
        MessageSize := f.len
        DigitalInputs := f.digitalInputs
        DigitalOutputs := f.digitalOutputs }
    else d

/-- The GetFeed loop over a finite stretch of incoming frames. -/
def getFeedRun (frames : List (Option Frame)) (d : FeedData) : FeedData :=
  frames.foldl (fun st fo => getFeedStep fo st) d

/-- LABEL_ROBOT_MODE lookup (ui.py / ui_epick.py); none models the KeyError
on a mode outside the table. -/
def LABEL_ROBOT_MODE (mode : Int) : Option String :=
  if mode = 1 then some "ROBOT_MODE_INIT"
  else if mode = 2 then some "ROBOT_MODE_BRAKE_OPEN"
  else if mode = 3 then some ""
  else if mode = 4 then some "ROBOT_MODE_DISABLED"
  else if mode = 5 then some "ROBOT_MODE_ENABLE"
  else if mode = 6 then some "ROBOT_MODE_DRAGE"
  else if mode = 7 then some "ROBOT_MODE_RUNNING"
  else if mode = 8 then some "ROBOT_MODE_RECORDING"
  else if mode = 9 then some "ROBOT_MODE_ERROR"
  else if mode = 10 then some "ROBOT_MODE_PAUSE"
  else if mode = 11 then some "ROBOT_MODE_JOG"
  else none

/-- The label state written by RobotUI.feed_back (ui.py lines 892-962):
speed ratio, robot-mode text, the two 64-character IO bit strings, the
joint and pose displays, and a count of error-detail fetches. -/
structure UiView where
  speedText : Int
  robotModeText : String
  diText : List Char
  doText : List Char
  jointTexts : List Int
  coordTexts : List Int
  errFetchCount : Nat
  deriving DecidableEq

/-- One valid-length frame processed by RobotUI.feed_back: frames failing
the magic check update nothing; valid frames replace every label from the
frame (bin(x)[2:].rjust(64, the digit 0) is zfill 64 on the unsigned
bitmask) and fetch error details when the mode is the error code 9.  none
models the uncaught KeyError on an unknown mode. -/
def feed_back_step (f : Frame) (v : UiView) : Option UiView :=
  if f.testValue = TEST_VALUE_MAGIC then
    match LABEL_ROBOT_MODE f.robotMode with
    | none => none
    | some lbl =>
      some { speedText := f.speedScaling
             robotModeText := lbl
             diText := zfill 64 (binDigits f.digitalInputs)
             doText := zfill 64 (binDigits f.digitalOutputs)
             jointTexts := f.qActual
             coordTexts := f.toolVectorActual
             errFetchCount := v.errFetchCount + (if f.robotMode = 9 then 1 else 0) }
  else some v

/-! ### The completion-wait loop of DobotDemo.RunPoint (DobotDemo.py
lines 81-87) and the dispatch logic around it -/

/-- The while-True completion loop of RunPoint, polled over the stream s of
snapshots (one per sleep(0.1) iteration), started at poll instant k and
observed for fuel further polls: some n when the loop breaks at instant n
within the horizon, none when it has not returned yet.  The source loop has
no deadline parameter; fuel is only the observation horizon. -/
def runPointLoop (s : Nat → FeedData) (c : Int) : Nat → Nat → Option Nat
  | _, 0 => none
  | k, fuel + 1 =>
    if (s k).robotMode = 5 ∧ (s k).robotCurrentCommandID = c then some k
    else runPointLoop s c (k + 1) fuel

/-- DobotDemo.RunPoint after the MovJ reply arrives (DobotDemo.py
lines 73-87): take the second parsed integer as the command id (none models
the IndexError when fewer than two integers were parsed) and enter the
completion loop unconditionally; the reply's leading result code is never
inspected and no stop command is ever issued. -/
def runPoint (reply : String) (s : Nat → FeedData) (fuel : Nat) : Option Int :=
  match (parseResultId reply)[1]? with
  | none => none
  | some cid => (runPointLoop s cid 0 fuel).map fun _ => cid

/-- Outcome of one dispatch step of replay_trajectory.main. -/
inductive ReplayOutcome where
  | stopThenAbort (code : Int)
  | proceed
  deriving DecidableEq

/-- The per-pose dispatch check of replay_trajectory.main (lines 198-204):
a negative parsed result code issues dash.Stop() and then raises, before any
further command is sent; otherwise the loop proceeds to the next pose. -/
def replayStep (reply : String) : ReplayOutcome :=
  if parse_result_code reply < 0 then
    ReplayOutcome.stopThenAbort (parse_result_code reply)
  else ReplayOutcome.proceed

/-! ### Arithmetic facts about the bit-string machinery -/

lemma bitVal_char_zero : bitVal '0' = 0 := by decide

lemma isBit_char_zero : isBit '0' = true := by decide

lemma bitVal_char_one : bitVal '1' = 1 := by decide

lemma bitsVal_singleton (c : Char) : bitsVal [c] = bitVal c := by
  simp [bitsVal]

lemma bitVal_bitChar (b : Nat) (hb : b < 2) : bitVal (bitChar b) = b := by
  interval_cases b <;> decide

lemma isBit_bitChar (b : Nat) : isBit (bitChar b) = true := by
  unfold bitChar
  split <;> decide

lemma bitsVal_foldl_from (l : List Char) (a : Nat) :
    List.foldl (fun x c => 2 * x + bitVal c) a l
      = a * 2 ^ l.length + List.foldl (fun x c => 2 * x + bitVal c) 0 l := by
  induction l generalizing a with
  | nil => simp
  | cons c t ih =>
    rw [List.foldl_cons, List.foldl_cons, ih (2 * a + bitVal c),
      ih (2 * 0 + bitVal c), List.length_cons]
    ring

lemma bitsVal_append (a b : List Char) :
    bitsVal (a ++ b) = bitsVal a * 2 ^ b.length + bitsVal b := by
  simp only [bitsVal, List.foldl_append]
  exact bitsVal_foldl_from b _

lemma bitsVal_replicate_zero (k : Nat) : bitsVal (List.replicate k '0') = 0 := by
  induction k with
  | zero => rfl
  | succ j ih =>
    rw [List.replicate_succ', bitsVal_append, ih, bitsVal_singleton, bitVal_char_zero]
    simp

lemma all_isBit_replicate_zero (k : Nat) : (List.replicate k '0').all isBit = true := by
  rw [List.all_eq_true]
  intro x hx
  have hmem := List.eq_of_mem_replicate hx
  subst hmem
  decide

lemma binDigitsAux_val (fuel : Nat) :
    ∀ n, n ≤ fuel → bitsVal (binDigitsAux fuel n) = n := by
  induction fuel with
  | zero =>
    intro n hn
    have h0 : n = 0 := Nat.le_zero.mp hn
    subst h0
    rfl
  | succ f ih =>
    intro n hn
    rw [binDigitsAux]
    by_cases h0 : n = 0
    · subst h0; simp; rfl
    · rw [if_neg h0, bitsVal_append, ih (n / 2) (by omega), bitsVal_singleton,
        bitVal_bitChar (n % 2) (Nat.mod_lt n (by norm_num)), List.length_cons,
        List.length_nil]
      omega

lemma binDigitsAux_all_isBit (fuel : Nat) :
    ∀ n, (binDigitsAux fuel n).all isBit = true := by
  induction fuel with
  | zero => intro n; rfl
  | succ f ih =>
    intro n
    rw [binDigitsAux]
    by_cases h0 : n = 0
    · rw [if_pos h0]; rfl
    · rw [if_neg h0, List.all_append, ih (n / 2)]
      simp [isBit_bitChar]

lemma binDigitsAux_length_le (fuel : Nat) :
    ∀ n k, n < 2 ^ k → (binDigitsAux fuel n).length ≤ k := by
  induction fuel with
  | zero => intro n k _; simp [binDigitsAux]
  | succ f ih =>
    intro n k hk
    rw [binDigitsAux]
    by_cases h0 : n = 0
    · rw [if_pos h0]; simp
    · rw [if_neg h0]
      cases k with
      | zero => norm_num at hk; omega
      | succ k =>
        rw [List.length_append]
        have hdiv : n / 2 < 2 ^ k := by
          rw [pow_succ] at hk
          omega
        have := ih (n / 2) k hdiv
        simp only [List.length_cons, List.length_nil]
        omega

lemma binDigits_val (n : Nat) : bitsVal (binDigits n) = n := by
  by_cases h : n = 0
  · subst h; decide
  · rw [binDigits, if_neg h]
    exact binDigitsAux_val n n (le_refl n)

lemma binDigits_all_isBit (n : Nat) : (binDigits n).all isBit = true := by
  by_cases h : n = 0
  · subst h; decide
  · rw [binDigits, if_neg h]
    exact binDigitsAux_all_isBit n n

lemma binDigits_length_le (n k : Nat) (h : n < 2 ^ k) (hk : 0 < k) :
    (binDigits n).length ≤ k := by
  by_cases h0 : n = 0
  · subst h0; simp [binDigits]; omega
  · rw [binDigits, if_neg h0]
    exact binDigitsAux_length_le n n k h

lemma isEmpty_false_of_length_pos (s : List Char) (h : 0 < s.length) :
    s.isEmpty = false := by
  cases s with
  | nil => simp at h
  | cons a t => rfl

lemma zfill_all_isBit (w : Nat) (s : List Char) (hs : s.all isBit = true) :
    (zfill w s).all isBit = true := by
  rw [zfill, List.all_append, hs, all_isBit_replicate_zero]
  rfl

lemma bitsVal_zfill (w : Nat) (s : List Char) : bitsVal (zfill w s) = bitsVal s := by
  rw [zfill, bitsVal_append, bitsVal_replicate_zero]
  simp

lemma zfill_length (w : Nat) (s : List Char) : (zfill w s).length = max w s.length := by
  simp [zfill]
  omega

/-! ### Behaviour of the encoders -/

lemma binaryStringToDecimal_eq_some (s : List Char) (hne : s.isEmpty = false)
    (hb : s.all isBit = true) : binaryStringToDecimal s = some (bitsVal s) := by
  simp [binaryStringToDecimal, hne, hb]

lemma binaryStringToDecimal_none_of_b (s : List Char) (h : 'b' ∈ s) :
    binaryStringToDecimal s = none := by
  have hall : s.all isBit = false := by
    rw [List.all_eq_false]
    exact ⟨'b', h, by decide⟩
  simp [binaryStringToDecimal, hall]

lemma decimalToBinaryString_nonneg (v : Int) (hv : 0 ≤ v) :
    decimalToBinaryString v = zfill 8 (binDigits v.toNat) := by
  simp [decimalToBinaryString, pyBinSlice2, hv]

lemma mem_b_decimalToBinaryString_neg (v : Int) (hv : v < 0) :
    'b' ∈ decimalToBinaryString v := by
  have h : pyBinSlice2 v = 'b' :: binDigits (-v).toNat := by
    simp [pyBinSlice2, not_le.mpr hv]
  simp [decimalToBinaryString, zfill, h]

lemma decimalToBinaryString_all_isBit (v : Int) (hv : 0 ≤ v) :
    (decimalToBinaryString v).all isBit = true := by
  rw [decimalToBinaryString_nonneg v hv]
  exact zfill_all_isBit 8 _ (binDigits_all_isBit _)

lemma bitsVal_decimalToBinaryString (v : Int) (hv : 0 ≤ v) :
    bitsVal (decimalToBinaryString v) = v.toNat := by
  rw [decimalToBinaryString_nonneg v hv, bitsVal_zfill, binDigits_val]

lemma decimalToBinaryString_length_ge (v : Int) :
    8 ≤ (decimalToBinaryString v).length := by
  rw [decimalToBinaryString, zfill_length]
  omega

lemma decimalToBinaryString_length (v : Int) (hv : 0 ≤ v) (hv2 : v ≤ 255) :
    (decimalToBinaryString v).length = 8 := by
  rw [decimalToBinaryString_nonneg v hv, zfill_length]
  have h8 : v.toNat < 2 ^ 8 := by
    have : (2 : Nat) ^ 8 = 256 := by norm_num
    omega
  have := binDigits_length_le v.toNat 8 h8 (by norm_num)
  omega

lemma cmdACTION_eq (f1 f2 f3 f4 : List Char) (h1 : f1.all isBit = true)
    (h2 : f2.all isBit = true) (h3 : f3.all isBit = true) (h4 : f4.all isBit = true) :
    cmdACTION [f1, f2, f3, f4] = some (bitsVal (f1 ++ f2 ++ f3 ++ f4) * 256) := by
  have hflat : ([f1, f2, f3, f4] : List (List Char)).flatten
      = f1 ++ f2 ++ f3 ++ f4 := by simp
  have hne : ((f1 ++ f2 ++ f3 ++ f4) ++ List.replicate 8 '0').isEmpty = false := by
    apply isEmpty_false_of_length_pos
    simp
  have hall : ((f1 ++ f2 ++ f3 ++ f4) ++ List.replicate 8 '0').all isBit = true := by
    simp [List.all_append, h1, h2, h3, h4, all_isBit_replicate_zero, isBit_char_zero]
  have hval : bitsVal ((f1 ++ f2 ++ f3 ++ f4) ++ List.replicate 8 '0')
      = bitsVal (f1 ++ f2 ++ f3 ++ f4) * 256 := by
    rw [bitsVal_append, bitsVal_replicate_zero, List.length_replicate]
    norm_num
  simp only [cmdACTION, hflat]
  rw [binaryStringToDecimal_eq_some _ hne hall, hval]

lemma cmdMAX_VACUUM_eq (v : Int) (hv : 0 ≤ v) : cmdMAX_VACUUM v = some v.toNat := by
  have hne : (List.replicate 8 '0' ++ decimalToBinaryString v).isEmpty = false := by
    apply isEmpty_false_of_length_pos
    simp
  have hall : (List.replicate 8 '0' ++ decimalToBinaryString v).all isBit = true := by
    simp [List.all_append, all_isBit_replicate_zero, decimalToBinaryString_all_isBit v hv,
      isBit_char_zero]
  simp only [cmdMAX_VACUUM]
  rw [binaryStringToDecimal_eq_some _ hne hall, bitsVal_append, bitsVal_replicate_zero,
    bitsVal_decimalToBinaryString v hv]
  simp

lemma cmdMAX_VACUUM_neg (v : Int) (hv : v < 0) : cmdMAX_VACUUM v = none := by
  simp only [cmdMAX_VACUUM]
  exact binaryStringToDecimal_none_of_b _
    (List.mem_append_right _ (mem_b_decimalToBinaryString_neg v hv))

lemma timeoutMin_eq (tc mv : Int) (htc : 0 ≤ tc) (hmv : 0 ≤ mv) (hmv2 : mv ≤ 255) :
    binaryStringToDecimal (cmdTIMEOUT tc ++ cmdMIN_VACUUM mv)
      = some (256 * tc.toNat + mv.toNat) := by
  simp only [cmdTIMEOUT, cmdMIN_VACUUM]
  have hne : (decimalToBinaryString tc ++ decimalToBinaryString mv).isEmpty = false := by
    apply isEmpty_false_of_length_pos
    have := decimalToBinaryString_length_ge tc
    simp only [List.length_append]
    omega
  have hall : (decimalToBinaryString tc ++ decimalToBinaryString mv).all isBit = true := by
    simp [List.all_append, decimalToBinaryString_all_isBit tc htc,
      decimalToBinaryString_all_isBit mv hmv]
  rw [binaryStringToDecimal_eq_some _ hne hall, bitsVal_append,
    bitsVal_decimalToBinaryString tc htc, bitsVal_decimalToBinaryString mv hmv,
    decimalToBinaryString_length mv hmv hmv2]
  have h8 : (2 : Nat) ^ 8 = 256 := by norm_num
  rw [h8]
  ring_nf

lemma timeoutMin_neg (tc mv : Int) (hmv : mv < 0) :
    binaryStringToDecimal (cmdTIMEOUT tc ++ cmdMIN_VACUUM mv) = none := by
  simp only [cmdTIMEOUT, cmdMIN_VACUUM]
  exact binaryStringToDecimal_none_of_b _
    (List.mem_append_right _ (mem_b_decimalToBinaryString_neg mv hmv))

/-! ### Concrete action words -/

lemma cmdACTION_clear :
    cmdACTION [ATR_NORMAL, GTO_HOLD, MOD_ADVANCED, ACT_CLEAR_FAULT_STATUS] = some 512 := by
  decide

lemma cmdACTION_enable_hold :
    cmdACTION [ATR_NORMAL, GTO_HOLD, MOD_ADVANCED, ACT_ENABLE] = some 768 := by
  decide

lemma cmdACTION_enable_controlled :
    cmdACTION [ATR_NORMAL, GTO_CONTROLED, MOD_ADVANCED, ACT_ENABLE] = some 2816 := by
  decide

/-! ### The grip trace under in-range and out-of-range arguments -/

lemma ceil100_nonneg (t : Int) (ht : 0 ≤ t) : 0 ≤ ceil100 t := by
  rw [ceil100]
  exact Int.fdiv_nonneg (by omega) (by norm_num)

lemma gripTrace_ok (m n t : Int) (hm0 : 0 ≤ m) (hm : m ≤ 100) (hn0 : 0 ≤ n)
    (hn : n ≤ 100) (ht : 0 ≤ t) :
    gripTrace m n t =
      ([⟨ROBORIQ_EPICK_WRITE_ADDRESS, [512]⟩,
        ⟨ROBORIQ_EPICK_WRITE_ADDRESS, [768]⟩,
        ⟨ROBORIQ_EPICK_WRITE_ADDRESS + 1,
          [(100 - m).toNat, 256 * (ceil100 t).toNat + (100 - n).toNat]⟩,
        ⟨ROBORIQ_EPICK_WRITE_ADDRESS, [2816]⟩], true) := by
  have h1 : cmdMAX_VACUUM (100 - m) = some (100 - m).toNat :=
    cmdMAX_VACUUM_eq _ (by omega)
  have h2 : binaryStringToDecimal (cmdTIMEOUT (ceil100 t) ++ cmdMIN_VACUUM (100 - n))
      = some (256 * (ceil100 t).toNat + (100 - n).toNat) :=
    timeoutMin_eq _ _ (ceil100_nonneg t ht) (by omega) (by omega)
  simp [gripTrace, h1, h2, cmdACTION_clear, cmdACTION_enable_hold,
    cmdACTION_enable_controlled]

lemma gripTrace_bad (m n t : Int) (h : 100 < m ∨ 100 < n) :
    gripTrace m n t = ([⟨ROBORIQ_EPICK_WRITE_ADDRESS, [512]⟩], false) := by
  by_cases hm : 100 < m
  · have h1 : cmdMAX_VACUUM (100 - m) = none := cmdMAX_VACUUM_neg _ (by omega)
    simp [gripTrace, h1, cmdACTION_clear]
  · have hn : 100 < n := by tauto
    have h1 : cmdMAX_VACUUM (100 - m) = some (100 - m).toNat :=
      cmdMAX_VACUUM_eq _ (by omega)
    have h2 : binaryStringToDecimal (cmdTIMEOUT (ceil100 t) ++ cmdMIN_VACUUM (100 - n))
        = none := timeoutMin_neg _ _ (by omega)
    simp [gripTrace, h1, h2, cmdACTION_clear]

/-! ### The RunPoint completion loop -/

lemma runPointLoop_sound (s : Nat → FeedData) (c : Int) :
    ∀ (fuel k n : Nat), runPointLoop s c k fuel = some n →
      (s n).robotMode = 5 ∧ (s n).robotCurrentCommandID = c := by
  intro fuel
  induction fuel with
  | zero => intro k n h; exact absurd h (by simp [runPointLoop])
  | succ f ih =>
    intro k n h
    rw [runPointLoop] at h
    by_cases hc : (s k).robotMode = 5 ∧ (s k).robotCurrentCommandID = c
    · rw [if_pos hc] at h
      have hk := Option.some.inj h
      subst hk
      exact hc
    · rw [if_neg hc] at h
      exact ih (k + 1) n h

lemma runPointLoop_complete (s : Nat → FeedData) (c : Int) :
    ∀ (fuel k : Nat),
      (∃ j, k ≤ j ∧ j < k + fuel ∧
          (s j).robotMode = 5 ∧ (s j).robotCurrentCommandID = c) →
      ∃ n, runPointLoop s c k fuel = some n := by
  intro fuel
  induction fuel with
  | zero => rintro k ⟨j, hj1, hj2, _⟩; omega
  | succ f ih =>
    rintro k ⟨j, hj1, hj2, hj3⟩
    rw [runPointLoop]
    by_cases hc : (s k).robotMode = 5 ∧ (s k).robotCurrentCommandID = c
    · rw [if_pos hc]
      exact ⟨k, rfl⟩
    · rw [if_neg hc]
      apply ih (k + 1)
      refine ⟨j, ?_, by omega, hj3⟩
      rcases Nat.eq_or_lt_of_le hj1 with rfl | hlt
      · exact absurd hj3 hc
      · omega

lemma runPointLoop_never (s : Nat → FeedData) (c : Int)
    (hnever : ∀ j, ¬((s j).robotMode = 5 ∧ (s j).robotCurrentCommandID = c)) :
    ∀ fuel k, runPointLoop s c k fuel = none := by
  intro fuel
  induction fuel with
  | zero => intro k; rfl
  | succ f ih =>
    intro k
    rw [runPointLoop, if_neg (hnever k)]
    exact ih (k + 1)

/-! ### Interleavings preserve each thread's write order -/

lemma interleaveBy_sublist_left {α : Type} :
    ∀ (sc : List Bool) (xs ys : List α), List.Sublist xs (interleaveBy sc xs ys) := by
  intro sc
  induction sc with
  | nil =>
    intro xs ys
    rw [interleaveBy]
    exact List.sublist_append_left xs ys
  | cons b sc ih =>
    intro xs ys
    cases xs with
    | nil =>
      simp only [interleaveBy]
      exact List.nil_sublist _
    | cons x xs =>
      cases ys with
      | nil => simp [interleaveBy]
      | cons y ys =>
        cases b with
        | true =>
          rw [interleaveBy]
          exact List.Sublist.cons₂ x (ih xs (y :: ys))
        | false =>
          rw [interleaveBy]
          exact List.Sublist.cons y (ih (x :: xs) ys)

lemma interleaveBy_sublist_right {α : Type} :
    ∀ (sc : List Bool) (xs ys : List α), List.Sublist ys (interleaveBy sc xs ys) := by
  intro sc
  induction sc with
  | nil =>
    intro xs ys
    rw [interleaveBy]
    exact List.sublist_append_right xs ys
  | cons b sc ih =>
    intro xs ys
    cases xs with
    | nil =>
      simp only [interleaveBy]
      exact List.Sublist.refl ys
    | cons x xs =>
      cases ys with
      | nil =>
        simp only [interleaveBy]
        exact List.nil_sublist (x :: xs)
      | cons y ys =>
        cases b with
        | true =>
          rw [interleaveBy]
          exact List.Sublist.cons x (ih xs (y :: ys))
        | false =>
          rw [interleaveBy]
          exact List.Sublist.cons₂ y (ih (x :: xs) ys)

/-! ### Claim theorems -/

/-- Claim C1 (amended).  The completion wait of DobotDemo.RunPoint returns
success exactly when, at some polled instant, the latest snapshot has
robotMode equal to the enabled code 5 and robotCurrentCommandID equal to the
command id; when that conjunction never holds the loop never returns at any
observation horizon.  The source loop has no deadline and no timeout
outcome. -/
theorem runPoint_wait_success_iff_polled_condition :
    ∀ (s : Nat → FeedData) (c : Int),
      (∃ fuel n, runPointLoop s c 0 fuel = some n) ↔
        ∃ n, (s n).robotMode = 5 ∧ (s n).robotCurrentCommandID = c := by
  intro s c
  constructor
  · rintro ⟨fuel, n, h⟩
    exact ⟨n, runPointLoop_sound s c fuel 0 n h⟩
  · rintro ⟨n, hn⟩
    obtain ⟨m, hm⟩ := runPointLoop_complete s c (n + 1) 0 ⟨n, by omega, by omega, hn⟩
    exact ⟨n + 1, m, hm⟩

/-- Counterexample to claim C1 as stated: on a stream whose snapshots always
report robotMode 7 (running), the RunPoint wait for command id 1 never
returns within any number of polls whatsoever -- the code polls forever
instead of producing a distinct timeout outcome. -/
theorem runPoint_wait_never_times_out_cex :
    ¬ ∃ fuel n,
        runPointLoop (fun _ => FeedData.mk 7 0 (-1) (-1) (-1)) 1 0 fuel = some n := by
  rintro ⟨fuel, n, h⟩
  rw [runPointLoop_never _ _ (fun j hj => absurd hj.1 (by decide)) fuel 0] at h
  exact Option.noConfusion h

/-- Claim C2.  A telemetry frame whose test-value field differs from the
magic 0x0123456789ABCDEF publishes nothing: the DobotDemo snapshot is left
exactly as it was, the UI labels of feed_back are left exactly as they were,
and the loop goes on with the next frame. -/
theorem invalid_magic_frame_publishes_nothing
    (f : Frame) (rest : List (Option Frame)) (d : FeedData) (v : UiView)
    (h : f.testValue ≠ TEST_VALUE_MAGIC) :
    getFeedStep (some f) d = d ∧ feed_back_step f v = some v ∧
      getFeedRun (some f :: rest) d = getFeedRun rest d := by
  refine ⟨?_, ?_, ?_⟩
  · simp [getFeedStep, h]
  · simp [feed_back_step, h]
  · simp [getFeedRun, getFeedStep, h]

/-- Witness for claim C2 at a concrete frame with test value 0. -/
theorem invalid_magic_frame_publishes_nothing_witness :
    getFeedStep (some (Frame.mk 0 1440 5 0 0 0 0 [] []))
        (FeedData.mk (-1) (-1) (-1) (-1) (-1)) = FeedData.mk (-1) (-1) (-1) (-1) (-1) ∧
      feed_back_step (Frame.mk 0 1440 5 0 0 0 0 [] []) (UiView.mk 0 "" [] [] [] [] 0)
        = some (UiView.mk 0 "" [] [] [] [] 0) ∧
      getFeedRun [some (Frame.mk 0 1440 5 0 0 0 0 [] [])]
          (FeedData.mk (-1) (-1) (-1) (-1) (-1))
        = getFeedRun [] (FeedData.mk (-1) (-1) (-1) (-1) (-1)) :=
  invalid_magic_frame_publishes_nothing (Frame.mk 0 1440 5 0 0 0 0 [] []) []
    (FeedData.mk (-1) (-1) (-1) (-1) (-1)) (UiView.mk 0 "" [] [] [] [] 0) (by decide)

/-- Claim C3.  parseResultId applied to the reply 0,17 yields the integer
list with 0 and 17, whose second element 17 is the assigned command id; and
on every reply without the wrong-control-mode marker in which at least one
integer occurs, parseResultId returns exactly the integers occurring in the
text in order of occurrence (the findInts scan). -/
theorem parseResultId_extracts_integers_in_order :
    parseResultId "0,17" = [0, 17] ∧ (parseResultId "0,17")[1]? = some 17 ∧
      ∀ s : String, containsSub notTcpMarker s.data = false →
        findInts s.data ≠ [] → parseResultId s = findInts s.data := by
  refine ⟨by decide, by decide, ?_⟩
  intro s h1 h2
  simp [parseResultId, h1, h2]

/-- Witness for claim C3 at the reply 0,17. -/
theorem parseResultId_extracts_integers_in_order_witness :
    parseResultId "0,17" = findInts "0,17".data :=
  parseResultId_extracts_integers_in_order.2.2 "0,17" (by decide) (by decide)

/-- Claim C4.  Every reply containing the marker Not Tcp parses to the
distinguished rejection list with the single element 1, which carries no
second integer to use as a command id; in particular the example reply does;
and the rejection differs from the parse of any ordinary successful numeric
reply, i.e. any marker-free reply whose leading extracted integer is the
success status 0. -/
theorem parseResultId_not_tcp_rejection :
    (∀ s : String, containsSub notTcpMarker s.data = true →
        parseResultId s = [1] ∧ (parseResultId s)[1]? = none) ∧
      parseResultId "Not Tcp, mode error" = [1] ∧
      ∀ (s : String) (rest : List Int), containsSub notTcpMarker s.data = false →
        findInts s.data = 0 :: rest → parseResultId s ≠ [1] := by
  refine ⟨?_, by decide, ?_⟩
  · intro s h
    refine ⟨?_, ?_⟩ <;> simp [parseResultId, h]
  · intro s rest h1 h2
    simp [parseResultId, h1, h2]

/-- Witness for claim C4 at the marker reply Not Tcp, mode error, and at the
successful reply 0,17. -/
theorem parseResultId_not_tcp_rejection_witness :
    (parseResultId "Not Tcp, mode error" = [1] ∧
        (parseResultId "Not Tcp, mode error")[1]? = none) ∧
      parseResultId "0,17" ≠ [1] :=
  ⟨parseResultId_not_tcp_rejection.1 "Not Tcp, mode error" (by decide),
    parseResultId_not_tcp_rejection.2.2 "0,17" [17] (by decide) (by decide)⟩

/-- Claim C5 (amended).  Only the trajectory-replay dispatcher short-circuits
on a negative leading result code, issuing the stop command and aborting
before any further dispatch; DobotDemo.RunPoint performs no such check: for
every reply carrying a second integer it enters the completion-polling phase
regardless of the sign of the leading code, and it never issues a stop. -/
theorem negative_code_short_circuit_replay_only :
    (∀ reply : String, parse_result_code reply < 0 →
        replayStep reply = ReplayOutcome.stopThenAbort (parse_result_code reply)) ∧
      ∀ (reply : String) (cid : Int) (s : Nat → FeedData) (fuel : Nat),
        (parseResultId reply)[1]? = some cid →
        runPoint reply s fuel = (runPointLoop s cid 0 fuel).map fun _ => cid := by
  constructor
  · intro reply h
    simp [replayStep, h]
  · intro reply cid s fuel h
    simp [runPoint, h]

/-- Witness for claim C5 at the rejected reply -1 and the reply -1,0. -/
theorem negative_code_short_circuit_replay_only_witness :
    replayStep "-1" = ReplayOutcome.stopThenAbort (parse_result_code "-1") ∧
      runPoint "-1,0" (fun _ => FeedData.mk 5 0 (-1) (-1) (-1)) 2
        = (runPointLoop (fun _ => FeedData.mk 5 0 (-1) (-1) (-1)) 0 0 2).map
            fun _ => (0 : Int) :=
  ⟨negative_code_short_circuit_replay_only.1 "-1" (by decide),
    negative_code_short_circuit_replay_only.2 "-1,0" 0 _ 2 (by decide)⟩

/-- Counterexample to claim C5 as stated: the reply -1,0 has a negative
leading result code, yet RunPoint enters (and here completes) the
completion-polling phase with the command id 0 taken from the reply; no stop
command exists anywhere in its code path. -/
theorem runPoint_ignores_negative_code_cex :
    parse_result_code "-1,0" < 0 ∧
      runPoint "-1,0" (fun _ => FeedData.mk 5 0 (-1) (-1) (-1)) 1 = some 0 := by
  constructor
  · decide
  · decide

/-- Claim C6.  init writes the fault-clear action word strictly before the
enable action word (clear word 512, enable word 768, both with the release
threshold 255), and for in-range arguments grip performs exactly the
four-step sequence: fault-clear write, enable write, the parameter write at
the address immediately following the action address, then the
controlled-and-enabled execute write 2816 -- in that order, never reordered
or collapsed. -/
theorem gripper_reset_before_enable_order (m n t : Int)
    (hm0 : 0 ≤ m) (hm : m ≤ 100) (hn0 : 0 ≤ n) (hn : n ≤ 100) (ht : 0 ≤ t) :
    initTrace = ([⟨ROBORIQ_EPICK_WRITE_ADDRESS, [512, 255]⟩,
        ⟨ROBORIQ_EPICK_WRITE_ADDRESS, [768, 255]⟩], true) ∧
      gripTrace m n t =
        ([⟨ROBORIQ_EPICK_WRITE_ADDRESS, [512]⟩,
          ⟨ROBORIQ_EPICK_WRITE_ADDRESS, [768]⟩,
          ⟨ROBORIQ_EPICK_WRITE_ADDRESS + 1,
            [(100 - m).toNat, 256 * (ceil100 t).toNat + (100 - n).toNat]⟩,
          ⟨ROBORIQ_EPICK_WRITE_ADDRESS, [2816]⟩], true) :=
  ⟨by decide, gripTrace_ok m n t hm0 hm hn0 hn ht⟩

/-- Witness for claim C6 at the UI default arguments 80, 20, 0. -/
theorem gripper_reset_before_enable_order_witness :
    initTrace = ([⟨ROBORIQ_EPICK_WRITE_ADDRESS, [512, 255]⟩,
        ⟨ROBORIQ_EPICK_WRITE_ADDRESS, [768, 255]⟩], true) ∧
      gripTrace 80 20 0 =
        ([⟨ROBORIQ_EPICK_WRITE_ADDRESS, [512]⟩,
          ⟨ROBORIQ_EPICK_WRITE_ADDRESS, [768]⟩,
          ⟨ROBORIQ_EPICK_WRITE_ADDRESS + 1,
            [(100 - 80 : Int).toNat, 256 * (ceil100 0).toNat + (100 - 20 : Int).toNat]⟩,
          ⟨ROBORIQ_EPICK_WRITE_ADDRESS, [2816]⟩], true) :=
  gripper_reset_before_enable_order 80 20 0 (by decide) (by decide) (by decide)
    (by decide) (by decide)

/-- Claim C7.  The action-word encoder is a pure bit-exact function: for all
binary flag strings, the ACTION word is the value of the msb-first
concatenation of the flags shifted left by eight bits; the MAX_VACUUM word
of a value between 0 and 255 is exactly that value in the low byte; and the
clear-fault example always encodes to the same integer 512. -/
theorem action_word_encoding_bit_exact :
    (∀ atr gto md act : List Char,
        atr.all isBit = true → gto.all isBit = true → md.all isBit = true →
          act.all isBit = true →
          cmdACTION [atr, gto, md, act]
            = some (bitsVal (atr ++ gto ++ md ++ act) * 256)) ∧
      (∀ v : Int, 0 ≤ v → v ≤ 255 → cmdMAX_VACUUM v = some v.toNat) ∧
      cmdACTION [ATR_NORMAL, GTO_HOLD, MOD_ADVANCED, ACT_CLEAR_FAULT_STATUS] = some 512 :=
  ⟨cmdACTION_eq, fun v hv _ => cmdMAX_VACUUM_eq v hv, cmdACTION_clear⟩

/-- Witness for claim C7 at the grip flags and the release vacuum value. -/
theorem action_word_encoding_bit_exact_witness :
    cmdACTION [ATR_NORMAL, GTO_CONTROLED, MOD_ADVANCED, ACT_ENABLE]
        = some (bitsVal (ATR_NORMAL ++ GTO_CONTROLED ++ MOD_ADVANCED ++ ACT_ENABLE) * 256) ∧
      cmdMAX_VACUUM 255 = some (255 : Int).toNat :=
  ⟨action_word_encoding_bit_exact.1 ATR_NORMAL GTO_CONTROLED MOD_ADVANCED ACT_ENABLE
      (by decide) (by decide) (by decide) (by decide),
    action_word_encoding_bit_exact.2.1 255 (by decide) (by decide)⟩

/-- Claim C8.  A register write with no serial-bridge session identifier
(ModbusIndex absent) returns the error result string, transmits nothing on
the channel, and leaves the ModbusIndex unchanged; being a total function of
its inputs it raises no exception, so the surrounding session survives. -/
theorem write_by_485_missing_modbus_index :
    ∀ (devReply : String) (address : Int) (datas : List Int),
      write_by_485 devReply none address datas = ("Error: No Modbus Index", [], none) :=
  fun _ _ _ => rfl

/-- Claim C9 (amended).  The lock of write_by_485 covers one transmission
plus its settle delay, so every single register write is atomic and any
concurrent schedule yields a transport trace in which each caller's writes
appear in their program order (each write sequence is a sublist of the
trace); the lock does not, however, span the several writes of one gripper
action. -/
theorem register_writes_atomic_per_call :
    ∀ (sched : List Bool) (m n t : Int),
      List.Sublist (gripTrace m n t).1
          (interleaveBy sched (gripTrace m n t).1 releaseTrace.1) ∧
        List.Sublist releaseTrace.1
          (interleaveBy sched (gripTrace m n t).1 releaseTrace.1) :=
  fun sched m n t =>
    ⟨interleaveBy_sublist_left sched (gripTrace m n t).1 releaseTrace.1,
      interleaveBy_sublist_right sched (gripTrace m n t).1 releaseTrace.1⟩

/-- Counterexample to claim C9 as stated: under the schedule that runs one
write of grip, then one write of release, the transport trace is neither
grip-then-release nor release-then-grip -- the two command sequences
interleave at the transport, because the lock is released between the
writes of a single action. -/
theorem grip_release_interleaving_cex :
    interleaveBy [true, false] (gripTrace 80 20 0).1 releaseTrace.1 ≠
        (gripTrace 80 20 0).1 ++ releaseTrace.1 ∧
      interleaveBy [true, false] (gripTrace 80 20 0).1 releaseTrace.1 ≠
        releaseTrace.1 ++ (gripTrace 80 20 0).1 := by
  constructor
  · decide
  · decide

/-- Claim C10.  For in-range arguments the two parameter registers written
at the address following the action address are exactly 100 minus the
maximum vacuum and 256 times the ceiling of the timeout over 100 plus 100
minus the minimum vacuum; for a maximum or minimum vacuum above 100 the
encoding raises instead (the negative intermediate value yields an invalid
binary string), so the parameter write never happens and the grip call
aborts after its fault-clear write. -/
theorem grip_parameter_register_encoding (m n t : Int) :
    (0 ≤ m → m ≤ 100 → 0 ≤ n → n ≤ 100 → 0 ≤ t → ceil100 t ≤ 255 →
        (gripTrace m n t).1[2]? =
          some ⟨ROBORIQ_EPICK_WRITE_ADDRESS + 1,
            [(100 - m).toNat, 256 * (ceil100 t).toNat + (100 - n).toNat]⟩) ∧
      (100 < m ∨ 100 < n →
        gripTrace m n t = ([⟨ROBORIQ_EPICK_WRITE_ADDRESS, [512]⟩], false)) := by
  constructor
  · intro hm0 hm hn0 hn ht _
    rw [gripTrace_ok m n t hm0 hm hn0 hn ht]
    rfl
  · exact gripTrace_bad m n t

/-- Witness for claim C10 at the in-range arguments 80, 20, 0 and the
out-of-range maximum vacuum 150. -/
theorem grip_parameter_register_encoding_witness :
    (gripTrace 80 20 0).1[2]? =
        some ⟨ROBORIQ_EPICK_WRITE_ADDRESS + 1,
          [(100 - 80 : Int).toNat, 256 * (ceil100 0).toNat + (100 - 20 : Int).toNat]⟩ ∧
      gripTrace 150 20 0 = ([⟨ROBORIQ_EPICK_WRITE_ADDRESS, [512]⟩], false) :=
  ⟨(grip_parameter_register_encoding 80 20 0).1 (by decide) (by decide) (by decide)
      (by decide) (by decide) (by decide),
    (grip_parameter_register_encoding 150 20 0).2 (by decide)⟩
